import Mathlib

/-!
Verification of the sunpy `net.dataretriever` sources (EVE, Fermi GBM, GOES
XRS, GOES SUVI) against their natural-language specification.

The Python code is shallowly embedded: query attributes become a closed
inductive type, each client's `_can_handle_query` becomes a Lean function on
lists of attributes, and the SUVI URL/validation logic becomes explicit
`Except`-valued functions.  Python's `int()` on strings is modelled as an
`Option`-valued parser, and exceptions are modelled with `Except`.
-/

/-- ASCII lower-casing of a string, modelling Python's `str.lower` on the
ASCII strings used by the clients. -/
def lowerStr (s : String) : String :=
  String.mk (s.data.map Char.toLower)

/-- Drop leading and trailing spaces from a character list. -/
def stripSpaces (cs : List Char) : List Char :=
  ((cs.dropWhile (fun c => c == ' ')).reverse.dropWhile (fun c => c == ' ')).reverse

/-- Python's `int()` applied to a string: optional surrounding whitespace,
optional sign, then a nonempty run of decimal digits; anything else raises
`ValueError`, modelled as `none`. -/
def pyStrToInt (s : String) : Option Int :=
  let cs := stripSpaces s.data
  let signed : Int × List Char :=
    match cs with
    | '-' :: rest => (-1, rest)
    | '+' :: rest => (1, rest)
    | _ => (1, cs)
  if !signed.2.isEmpty && signed.2.all Char.isDigit then
    some (signed.1 * ((signed.2.foldl (fun acc c => acc * 10 + (c.toNat - 48)) 0 : Nat) : Int))
  else none

/-- Python's `int()` on a string as an `Except`, making the `ValueError` it
can raise explicit. -/
def pyInt (s : String) : Except String Int :=
  match pyStrToInt s with
  | some n => Except.ok n
  | none => Except.error "ValueError"

/-- An exact rational number given as numerator and (positive) denominator,
modelling the Python numeric literals (ints and floats such as `0.5`) that
appear as attribute values.  No normalization is performed; all operations
used by the embedding are plain integer arithmetic. -/
structure Frac where
  num : Int
  den : Nat
deriving DecidableEq, Repr

/-- The rational with value `n`. -/
def Frac.ofInt (n : Int) : Frac := ⟨n, 1⟩

/-- Equality to zero for an exact rational with positive denominator. -/
def Frac.isZero (a : Frac) : Bool := a.num == 0

/-- `a ≤ b` by cross multiplication (denominators are positive in all uses). -/
def Frac.le (a b : Frac) : Bool := decide (a.num * (b.den : Int) ≤ b.num * (a.den : Int))

/-- Python's `int()` on a number: truncation toward zero. -/
def Frac.trunc (a : Frac) : Int := Int.tdiv a.num (a.den : Int)

/-- A calendar date (the clients only ever compare and step whole days). -/
structure Date where
  year : Nat
  month : Nat
  day : Nat
deriving DecidableEq, Repr

/-- An inclusive `[start, stop]` pair of dates, modelling `sunpy.time.TimeRange`
at the daily granularity used by the claims. -/
structure TimeRange where
  start : Date
  stop : Date
deriving DecidableEq, Repr

/-- Whether year `y` is a leap year (Gregorian calendar). -/
def isLeapYear (y : Nat) : Bool :=
  (y % 4 == 0 && y % 100 != 0) || y % 400 == 0

/-- Number of days in month `m` of year `y`. -/
def daysInMonth (y m : Nat) : Nat :=
  if m == 2 then (if isLeapYear y then 29 else 28)
  else if m == 4 || m == 6 || m == 9 || m == 11 then 30
  else 31

/-- Days in the months strictly before month `m` of a non-leap year. -/
def daysBeforeMonth (m : Nat) : Nat :=
  [0, 31, 59, 90, 120, 151, 181, 212, 243, 273, 304, 334].getD (m - 1) 0

/-- Day count of a date from a fixed epoch (proleptic Gregorian ordinal);
consecutive dates have consecutive ordinals. -/
def Date.ordinal (d : Date) : Nat :=
  let y := d.year - 1
  365 * y + y / 4 - y / 100 + y / 400 + daysBeforeMonth d.month +
    (if 2 < d.month && isLeapYear d.year then 1 else 0) + d.day

/-- The calendar day after `d`. -/
def Date.next (d : Date) : Date :=
  if d.day < daysInMonth d.year d.month then ⟨d.year, d.month, d.day + 1⟩
  else if d.month < 12 then ⟨d.year, d.month + 1, 1⟩
  else ⟨d.year + 1, 1, 1⟩

/-- The value carried by a `Level` attribute: Python lets it be a string or a
number (possibly non-integral), modelled as a rational. -/
inductive LevelValue where
  | str (s : String)
  | num (q : Frac)
deriving DecidableEq, Repr

/-- The closed vocabulary of query attributes
(`Time`, `Instrument`, `Level`, `Detector`, `Resolution`, `Wavelength`,
`SatelliteNumber`), plus `other` for an attribute of an unregistered class
(such as `Source`), carrying that class's name. -/
inductive QueryAttr where
  | time (tr : TimeRange)
  | instrument (value : String)
  | level (value : LevelValue)
  | detector (value : String)
  | resolution (value : String)
  | wavelength (wavemin wavemax : Frac)
  | satelliteNumber (value : Int)
  | other (clsName : String)
deriving DecidableEq, Repr

/-- An attribute kind, i.e. the Python class of a query attribute
(`type(x)` in the sources). -/
inductive AttrKind where
  | Time
  | Instrument
  | Level
  | Detector
  | Resolution
  | Wavelength
  | SatelliteNumber
  | other (clsName : String)
deriving DecidableEq, Repr

/-- `type(x)` for a query attribute. -/
def kind : QueryAttr → AttrKind
  | QueryAttr.time _ => AttrKind.Time
  | QueryAttr.instrument _ => AttrKind.Instrument
  | QueryAttr.level _ => AttrKind.Level
  | QueryAttr.detector _ => AttrKind.Detector
  | QueryAttr.resolution _ => AttrKind.Resolution
  | QueryAttr.wavelength _ _ => AttrKind.Wavelength
  | QueryAttr.satelliteNumber _ => AttrKind.SatelliteNumber
  | QueryAttr.other n => AttrKind.other n

/-- `x.__class__.__name__` for a query attribute. -/
def className : QueryAttr → String
  | QueryAttr.time _ => "Time"
  | QueryAttr.instrument _ => "Instrument"
  | QueryAttr.level _ => "Level"
  | QueryAttr.detector _ => "Detector"
  | QueryAttr.resolution _ => "Resolution"
  | QueryAttr.wavelength _ _ => "Wavelength"
  | QueryAttr.satelliteNumber _ => "SatelliteNumber"
  | QueryAttr.other n => n

/-- `x.value` for the attributes whose value is a plain string
(`Instrument`, `Detector`, `Resolution`); the empty string otherwise. -/
def strValue : QueryAttr → String
  | QueryAttr.instrument s => s
  | QueryAttr.detector s => s
  | QueryAttr.resolution s => s
  | _ => ""

/-- Modelled from the spec: `GenericClient.check_attr_types_in_query` is not
under `src/`; per the spec's Capability Router steps 1 and 2 it rejects when a
required kind is absent from the query or when a present kind is neither
required nor optional. -/
def check_attr_types_in_query (query : List QueryAttr)
    (required optionalKinds : List AttrKind) : Bool :=
  required.all (fun k => (query.map kind).contains k) &&
    (query.map kind).all (fun k => required.contains k || optionalKinds.contains k)

/-- `EVEClient`'s required attribute kinds (`eve.py`). -/
def EVE.required : List AttrKind := [AttrKind.Time, AttrKind.Instrument, AttrKind.Level]

/-- `EVEClient`'s optional attribute kinds: the empty set (`eve.py`). -/
def EVE.optionalKinds : List AttrKind := []

/-- The per-`Level`-attribute acceptance test inside
`EVEClient._can_handle_query`: the string "0CS" (case-insensitively) counts as
0, any other string goes through `int()` (a failed conversion rejects), and
the resulting value must equal 0. -/
def EVE.levelOk : LevelValue → Bool
  | LevelValue.str s =>
    if lowerStr s == "0cs" then true
    else
      match pyStrToInt s with
      | some n => decide (n = 0)
      | none => false
  | LevelValue.num q => q.isZero

/-- The body of the `for x in query` loop of `EVEClient._can_handle_query`:
whether attribute `x` leaves `matches` true. -/
def EVE.attrOk : QueryAttr → Bool
  | QueryAttr.instrument s => lowerStr s == "eve"
  | QueryAttr.level v => EVE.levelOk v
  | _ => true

/-- `EVEClient._can_handle_query` (`eve.py`): the attribute-kind check followed
by the `matches` flag folded over the query. -/
def EVE.can_handle_query (query : List QueryAttr) : Bool :=
  if !check_attr_types_in_query query EVE.required EVE.optionalKinds then false
  else query.foldl (fun m x => m && EVE.attrOk x) true

/-- The `Level` branch of `EVEClient._can_handle_query` with the `ValueError`
of `int()` explicit: the `try`/`except` catches it and turns it into a `false`
result rather than letting it escape. -/
def EVE.levelOkE : LevelValue → Except String Bool
  | LevelValue.str s =>
    if lowerStr s == "0cs" then Except.ok true
    else
      match pyInt s with
      | Except.ok n => Except.ok (decide (n = 0))
      | Except.error _ => Except.ok false
  | LevelValue.num q => Except.ok q.isZero

/-- One loop iteration of `EVEClient._can_handle_query` in the exception
monad. -/
def EVE.attrOkE : QueryAttr → Except String Bool
  | QueryAttr.instrument s => Except.ok (lowerStr s == "eve")
  | QueryAttr.level v => EVE.levelOkE v
  | x => Except.ok (EVE.attrOk x)

/-- `EVEClient._can_handle_query` in the exception monad: any uncaught
exception inside the loop would surface as an `Except.error`. -/
def EVE.can_handle_queryE (query : List QueryAttr) : Except String Bool :=
  if !check_attr_types_in_query query EVE.required EVE.optionalKinds then Except.ok false
  else
    query.foldlM (fun m x => do
      let r ← EVE.attrOkE x
      pure (m && r)) true

/-- `chkattr` of `GBMClient._can_handle_query` (`fermi_gbm.py`). -/
def GBM.chkattr : List String := ["Time", "Instrument", "Detector", "Resolution"]

/-- `GBMClient._can_handle_query` (`fermi_gbm.py`): on meeting an attribute of
class name `Instrument` whose value lower-cases to "gbm" it returns
`all(chklist)`; otherwise `False`. -/
def GBM.can_handle_query (query : List QueryAttr) : Bool :=
  if query.any (fun x => className x == "Instrument" && lowerStr (strValue x) == "gbm") then
    query.all (fun x => GBM.chkattr.contains (className x))
  else false

/-- The `Detector` values registered by `GBMClient.register_values`
(`n0` .. `n11`). -/
def GBM.detectors : List String :=
  (List.range 12).map (fun i => "n" ++ Nat.repr i)

/-- The `Resolution` values registered by `GBMClient.register_values`. -/
def GBM.resolutions : List String := ["CSPEC", "CTIME"]

/-- `chkattr` of `XRSClient._can_handle_query` (`goes.py`). -/
def XRS.chkattr : List String := ["Time", "Instrument", "SatelliteNumber"]

/-- `XRSClient._can_handle_query` (`goes.py`): like GBM but the instrument
value must lower-case to "xrs" or "goes". -/
def XRS.can_handle_query (query : List QueryAttr) : Bool :=
  if query.any (fun x =>
      className x == "Instrument" &&
        (lowerStr (strValue x) == "xrs" || lowerStr (strValue x) == "goes")) then
    query.all (fun x => XRS.chkattr.contains (className x))
  else false

/-- `SUVIClient._can_handle_query`'s required kinds (`goes.py`). -/
def SUVI.required : List AttrKind := [AttrKind.Time, AttrKind.Instrument]

/-- `SUVIClient._can_handle_query`'s optional kinds (`goes.py`). -/
def SUVI.optionalKinds : List AttrKind :=
  [AttrKind.Wavelength, AttrKind.Level, AttrKind.SatelliteNumber]

/-- `SUVIClient._can_handle_query` (`goes.py`): the set of non-required kinds
present must lie inside the optional kinds, and exactly one `Instrument`
attribute with value lower-casing to "suvi" must be present. -/
def SUVI.can_handle_query (query : List QueryAttr) : Bool :=
  let all_attrs := query.map kind
  let ops := all_attrs.filter (fun k => !SUVI.required.contains k)
  if !ops.isEmpty && !ops.all (fun k => SUVI.optionalKinds.contains k) then false
  else
    query.countP (fun x =>
      kind x == AttrKind.Instrument && lowerStr (strValue x) == "suvi") == 1

/-- The four clients under verification. -/
inductive Client where
  | eve
  | gbm
  | xrs
  | suvi
deriving DecidableEq, Repr

/-- A client's recognized attribute kinds (its required and optional kinds
together). -/
def Client.kinds : Client → List AttrKind
  | Client.eve => EVE.required ++ EVE.optionalKinds
  | Client.gbm => [AttrKind.Time, AttrKind.Instrument, AttrKind.Detector, AttrKind.Resolution]
  | Client.xrs => [AttrKind.Time, AttrKind.Instrument, AttrKind.SatelliteNumber]
  | Client.suvi => SUVI.required ++ SUVI.optionalKinds

/-- Dispatch `_can_handle_query` over the four clients. -/
def Client.canHandle : Client → List QueryAttr → Bool
  | Client.eve, q => EVE.can_handle_query q
  | Client.gbm, q => GBM.can_handle_query q
  | Client.xrs, q => XRS.can_handle_query q
  | Client.suvi, q => SUVI.can_handle_query q

/-- Zero-padded decimal rendering of a natural number to width 2 (`%m`, `%d`). -/
def pad2 (n : Nat) : String :=
  if n < 10 then "0" ++ Nat.repr n else Nat.repr n

/-- Zero-padded decimal rendering of a natural number to width 4 (`%Y`). -/
def pad4 (n : Nat) : String :=
  if n < 10 then "000" ++ Nat.repr n
  else if n < 100 then "00" ++ Nat.repr n
  else if n < 1000 then "0" ++ Nat.repr n
  else Nat.repr n

/-- Zero-padded decimal rendering of an integer to width 3 (the `{wave:03}`
and `{wave_minus1:03}` format fields of `goes.py`). -/
def pad3 (n : Int) : String :=
  if n < 0 then "-" ++ Int.repr n
  else if n < 10 then "00" ++ Int.repr n
  else if n < 100 then "0" ++ Int.repr n
  else Int.repr n

/-- Modelled from the spec: the Time-Range Enumerator (`sunpy.util.scraper`,
which is not under `src/`) yields the ordered sequence of buckets covering the
range at the template's resolution, inclusive of both endpoints; for the
daily-resolution EVE template this is one bucket per calendar day from
`start` to `stop`. -/
def enumerateDaily (tr : TimeRange) : List Date :=
  (List.range (tr.stop.ordinal + 1 - tr.start.ordinal)).map
    (fun i => Nat.iterate Date.next i tr.start)

/-- `EVEClient.baseurl` (`eve.py`) rendered for one daily bucket: the `%Y`,
`%m`, `%d` directives replaced by the bucket's zero-padded fields. -/
def EVE.renderUrl (d : Date) : String :=
  "http://lasp.colorado.edu/eve/data_access/evewebdata/quicklook/L0CS/SpWx/" ++
    pad4 d.year ++ "/" ++ pad4 d.year ++ pad2 d.month ++ pad2 d.day ++
    "_EVE_L0CS_DIODES_1m.txt"

/-- The concrete URLs the EVE client hands to the network lister for a time
range: one rendered `baseurl` per enumerated daily bucket. -/
def EVE.urlsForTimerange (tr : TimeRange) : List String :=
  (enumerateDaily tr).map EVE.renderUrl

/-- The wavelength argument of `SUVIClient._get_url_for_timerange`: either a
single `Quantity` (in Angstrom) or a `wavemin`/`wavemax` range. -/
inductive WaveInput where
  | single (angstrom : Frac)
  | range (wavemin wavemax : Frac)
deriving DecidableEq, Repr

/-- `supported_waves` of `SUVIClient._get_url_for_timerange` (`goes.py`). -/
def SUVI.supported_waves : List Int := [94, 131, 171, 195, 284, 304]

/-- `supported_levels` of `SUVIClient._get_url_for_timerange` (`goes.py`). -/
def SUVI.supported_levels : List String := ["2", "1b"]

/-- `itertools.compress`: keep the elements whose selector is true. -/
def pyCompress : List Int → List Bool → List Int
  | [], _ => []
  | _, [] => []
  | x :: xs, b :: bs => if b then x :: pyCompress xs bs else pyCompress xs bs

/-- `SUVIClient._get_goes_sat_num` (`goes.py`): GOES-16 is operational from
2018-06-01 up to `parse_time("now")`; outside that range a `ValueError` is
raised.  `now` is the wall-clock date, passed explicitly. -/
def SUVI.get_goes_sat_num (now d : Date) : Except String Int :=
  if decide ((Date.ordinal ⟨2018, 6, 1⟩ : Nat) ≤ d.ordinal) && decide (d.ordinal ≤ now.ordinal)
  then Except.ok 16
  else Except.error "No operational SUVI instrument"

/-- The wavelength handling at the top of `SUVIClient._get_url_for_timerange`
(`goes.py`): a single `Quantity` is truncated with `int()` and must be in
`supported_waves`; a range keeps the supported waves it contains and must
contain at least one; no wavelength means all supported waves. -/
def SUVI.checkWaves : Option WaveInput → Except String (List Int)
  | some (WaveInput.single a) =>
    if !SUVI.supported_waves.contains a.trunc then
      Except.error "Wavelength not supported."
    else Except.ok [a.trunc]
  | some (WaveInput.range lo hi) =>
    let compress_index := SUVI.supported_waves.map
      (fun w => lo.le (Frac.ofInt w) && (Frac.ofInt w).le hi)
    if !compress_index.any id then Except.error "Wavelength not supported."
    else Except.ok (pyCompress SUVI.supported_waves compress_index)
  | none => Except.ok SUVI.supported_waves

/-- The input-validation prefix of `SUVIClient._get_url_for_timerange`
(`goes.py`, before any scraping), with each `raise` made an explicit
`Except.error` that propagates: the wavelength support check, then the
satellite-number resolution (the `_get_goes_sat_num` fallback of `kwargs.get`
is evaluated eagerly, before `satellitenumber` is consulted), then the `< 16`
check, then the level check.  Returns the validated waves, satellite number
and level. -/
def SUVI.validate (now trStart : Date) (wavelength : Option WaveInput)
    (satellitenumber : Option Int) (level : Option String) :
    Except String (List Int × Int × String) :=
  match SUVI.checkWaves wavelength with
  | Except.error e => Except.error e
  | Except.ok waves =>
    match SUVI.get_goes_sat_num now trStart with
    | Except.error e => Except.error e
    | Except.ok defaultSat =>
      let satnum : Int := satellitenumber.getD defaultSat
      if satnum < 16 then Except.error "Satellite number not supported."
      else
        let lvl := level.getD "2"
        if !SUVI.supported_levels.contains lvl then Except.error "Level not supported."
        else Except.ok (waves, satnum, lvl)

/-- `base_url` of `SUVIClient._get_url_for_timerange` with `{goes_number}`
substituted. -/
def SUVI.base_url (goes_number : Int) : String :=
  "https://data.ngdc.noaa.gov/platforms/solar-space-observing-satellites/goes/goes" ++
    Int.repr goes_number ++ "/"

/-- The `search_pattern` chosen and substituted by
`SUVIClient._get_url_for_timerange` for one wavelength (`goes.py`): level 2
uses the `ci{wave:03}` pattern for every wavelength; level 1b uses
`Fe{wave:03}` for 131/171/195/284 but `He{wave_minus1:03}` for 304 and
`Fe{wave_minus1:03}` for 94.  `none` when the branch leaves the pattern
undefined. -/
def SUVI.search_pattern (level : String) (wave goes_number : Int) : Option String :=
  if level == "2" then
    some (SUVI.base_url goes_number ++ "l2/data/suvi-l2-ci" ++ pad3 wave ++
      "/%Y/%m/%d/dr_suvi-l2-ci" ++ pad3 wave ++ "_g" ++ Int.repr goes_number ++
      "_s%Y%m%dT%H%M%SZ_.*\\.fits")
  else if level == "1b" then
    if wave == 131 || wave == 171 || wave == 195 || wave == 284 then
      some (SUVI.base_url goes_number ++ "l1b/suvi-l1b-fe" ++ pad3 wave ++
        "/%Y/%m/%d/OR_SUVI-L1b-Fe" ++ pad3 wave ++ "_G" ++ Int.repr goes_number ++
        "_s%Y%j%H%M%S.*\\.fits.gz")
    else if wave == 304 then
      some (SUVI.base_url goes_number ++ "l1b/suvi-l1b-he" ++ pad3 wave ++
        "/%Y/%m/%d/OR_SUVI-L1b-He" ++ pad3 (wave - 1) ++ "_G" ++ Int.repr goes_number ++
        "_s%Y%j%H%M%S.*\\.fits.gz")
    else if wave == 94 then
      some (SUVI.base_url goes_number ++ "l1b/suvi-l1b-fe" ++ pad3 wave ++
        "/%Y/%m/%d/OR_SUVI-L1b-Fe" ++ pad3 (wave - 1) ++ "_G" ++ Int.repr goes_number ++
        "_s%Y%j%H%M%S.*\\.fits.gz")
    else none
  else none

/-- The wavelength-rejection condition of `SUVIClient._get_url_for_timerange`
stated flatly: a single quantity whose `int()` truncation is not a supported
wave, or a range containing no supported wave. -/
def SUVI.waveRejected : Option WaveInput → Bool
  | some (WaveInput.single a) => !SUVI.supported_waves.contains a.trunc
  | some (WaveInput.range lo hi) =>
    !(SUVI.supported_waves.map (fun w => lo.le (Frac.ofInt w) && (Frac.ofInt w).le hi)).any id
  | none => false

/-- The spec's normalization predicate for a `Level` value, written from the
spec's words: the alias "0cs" (case-insensitively) normalizes to 0, any other
string is converted with `int()` and must equal 0, and a non-string value
must equal 0; a failed conversion fails the predicate. -/
def levelNormalizesToZero : LevelValue → Bool
  | LevelValue.str s =>
    if lowerStr s == "0cs" then true
    else
      match pyStrToInt s with
      | some n => decide (n = 0)
      | none => false
  | LevelValue.num q => q.isZero

/-- Two attributes equal up to the letter case of an `Instrument` value. -/
def attrCaseEq (x y : QueryAttr) : Bool :=
  match x, y with
  | QueryAttr.instrument s, QueryAttr.instrument t => lowerStr s == lowerStr t
  | a, b => decide (a = b)

/-- Two queries identical except for the letter case of `Instrument` values. -/
def queryCaseEquiv : List QueryAttr → List QueryAttr → Bool
  | [], [] => true
  | x :: xs, y :: ys => attrCaseEq x y && queryCaseEquiv xs ys
  | _, _ => false

/-- Folding the `matches` flag over a list is `List.all`. -/
theorem foldl_and_eq_all (p : QueryAttr → Bool) :
    ∀ (l : List QueryAttr) (b : Bool), l.foldl (fun m x => m && p x) b = (b && l.all p)
  | [], b => by simp
  | x :: xs, b => by
    simp [List.foldl_cons, List.all_cons, foldl_and_eq_all p xs, Bool.and_assoc]

/-- `EVEClient._can_handle_query` as the kind check conjoined with the
per-attribute test. -/
theorem EVE.can_handle_query_eq (query : List QueryAttr) :
    EVE.can_handle_query query =
      (check_attr_types_in_query query EVE.required EVE.optionalKinds &&
        query.all EVE.attrOk) := by
  unfold EVE.can_handle_query
  rcases h : check_attr_types_in_query query EVE.required EVE.optionalKinds <;>
    simp [h, foldl_and_eq_all]

/-- The exception-monad `Level` test never escapes an exception and agrees
with the boolean one. -/
theorem EVE.levelOkE_eq_ok (v : LevelValue) :
    EVE.levelOkE v = Except.ok (EVE.levelOk v) := by
  cases v with
  | str s =>
    simp only [EVE.levelOkE, EVE.levelOk, pyInt]
    rcases lowerStr s == "0cs" <;> rcases pyStrToInt s <;> simp
  | num q => rfl

/-- The exception-monad loop body never escapes an exception. -/
theorem EVE.attrOkE_eq_ok (x : QueryAttr) :
    EVE.attrOkE x = Except.ok (EVE.attrOk x) := by
  cases x <;> simp [EVE.attrOkE, EVE.attrOk, EVE.levelOkE_eq_ok]

/-- The exception-monad fold of `EVEClient._can_handle_query` returns the
boolean fold. -/
theorem EVE.foldlM_eq_ok :
    ∀ (l : List QueryAttr) (b : Bool),
      (l.foldlM (fun m x => do
        let r ← EVE.attrOkE x
        pure (m && r)) b : Except String Bool) =
        Except.ok (l.foldl (fun m x => m && EVE.attrOk x) b)
  | [], b => rfl
  | x :: xs, b => by
    rw [List.foldlM_cons, EVE.attrOkE_eq_ok x]
    exact EVE.foldlM_eq_ok xs (b && EVE.attrOk x)


/-- Case-equivalent attributes are instances of the same class. -/
theorem attrCaseEq_kind {x y : QueryAttr} (h : attrCaseEq x y = true) :
    kind x = kind y := by
  cases x <;> cases y <;> simp_all [attrCaseEq, kind]

/-- Case-equivalent attributes have the same class name. -/
theorem attrCaseEq_className {x y : QueryAttr} (h : attrCaseEq x y = true) :
    className x = className y := by
  cases x <;> cases y <;> simp_all [attrCaseEq, className]

/-- Case-equivalent attributes have the same lower-cased string value. -/
theorem attrCaseEq_strValue {x y : QueryAttr} (h : attrCaseEq x y = true) :
    lowerStr (strValue x) = lowerStr (strValue y) := by
  cases x <;> cases y <;> simp_all [attrCaseEq, strValue]

/-- The EVE per-attribute test only looks at lower-cased instrument values. -/
theorem attrCaseEq_eveAttrOk {x y : QueryAttr} (h : attrCaseEq x y = true) :
    EVE.attrOk x = EVE.attrOk y := by
  cases x <;> cases y <;> simp_all [attrCaseEq, EVE.attrOk]

/-- `List.all` is invariant under any predicate that respects `attrCaseEq`. -/
theorem queryCaseEquiv_all {p : QueryAttr → Bool}
    (hp : ∀ x y, attrCaseEq x y = true → p x = p y) :
    ∀ {q1 q2 : List QueryAttr}, queryCaseEquiv q1 q2 = true → q1.all p = q2.all p
  | [], [], _ => rfl
  | x :: xs, y :: ys, h => by
    simp only [queryCaseEquiv, Bool.and_eq_true] at h
    simp [List.all_cons, hp x y h.1, queryCaseEquiv_all hp h.2]
  | [], _ :: _, h => by simp [queryCaseEquiv] at h
  | _ :: _, [], h => by simp [queryCaseEquiv] at h

/-- `List.any` is invariant under any predicate that respects `attrCaseEq`. -/
theorem queryCaseEquiv_any {p : QueryAttr → Bool}
    (hp : ∀ x y, attrCaseEq x y = true → p x = p y) :
    ∀ {q1 q2 : List QueryAttr}, queryCaseEquiv q1 q2 = true → q1.any p = q2.any p
  | [], [], _ => rfl
  | x :: xs, y :: ys, h => by
    simp only [queryCaseEquiv, Bool.and_eq_true] at h
    simp [List.any_cons, hp x y h.1, queryCaseEquiv_any hp h.2]
  | [], _ :: _, h => by simp [queryCaseEquiv] at h
  | _ :: _, [], h => by simp [queryCaseEquiv] at h

/-- `List.countP` is invariant under any predicate that respects
`attrCaseEq`. -/
theorem queryCaseEquiv_countP {p : QueryAttr → Bool}
    (hp : ∀ x y, attrCaseEq x y = true → p x = p y) :
    ∀ {q1 q2 : List QueryAttr}, queryCaseEquiv q1 q2 = true → q1.countP p = q2.countP p
  | [], [], _ => rfl
  | x :: xs, y :: ys, h => by
    simp only [queryCaseEquiv, Bool.and_eq_true] at h
    simp [List.countP_cons, hp x y h.1, queryCaseEquiv_countP hp h.2]
  | [], _ :: _, h => by simp [queryCaseEquiv] at h
  | _ :: _, [], h => by simp [queryCaseEquiv] at h

/-- Case-equivalent queries consist of the same attribute kinds. -/
theorem queryCaseEquiv_map_kind :
    ∀ {q1 q2 : List QueryAttr}, queryCaseEquiv q1 q2 = true → q1.map kind = q2.map kind
  | [], [], _ => rfl
  | x :: xs, y :: ys, h => by
    simp only [queryCaseEquiv, Bool.and_eq_true] at h
    simp [List.map_cons, attrCaseEq_kind h.1, queryCaseEquiv_map_kind h.2]
  | [], _ :: _, h => by simp [queryCaseEquiv] at h
  | _ :: _, [], h => by simp [queryCaseEquiv] at h

/-- `EVEClient._can_handle_query` is invariant under instrument-value case. -/
theorem eve_caseEquiv_invariant {q1 q2 : List QueryAttr}
    (h : queryCaseEquiv q1 q2 = true) :
    EVE.can_handle_query q1 = EVE.can_handle_query q2 := by
  rw [EVE.can_handle_query_eq, EVE.can_handle_query_eq,
    queryCaseEquiv_all (fun x y hxy => attrCaseEq_eveAttrOk hxy) h]
  unfold check_attr_types_in_query
  rw [queryCaseEquiv_map_kind h]

/-- `GBMClient._can_handle_query` is invariant under instrument-value case. -/
theorem gbm_caseEquiv_invariant {q1 q2 : List QueryAttr}
    (h : queryCaseEquiv q1 q2 = true) :
    GBM.can_handle_query q1 = GBM.can_handle_query q2 := by
  unfold GBM.can_handle_query
  rw [queryCaseEquiv_any
      (fun x y hxy => by rw [attrCaseEq_className hxy, attrCaseEq_strValue hxy]) h,
    queryCaseEquiv_all (fun x y hxy => by rw [attrCaseEq_className hxy]) h]

/-- `XRSClient._can_handle_query` is invariant under instrument-value case. -/
theorem xrs_caseEquiv_invariant {q1 q2 : List QueryAttr}
    (h : queryCaseEquiv q1 q2 = true) :
    XRS.can_handle_query q1 = XRS.can_handle_query q2 := by
  unfold XRS.can_handle_query
  rw [queryCaseEquiv_any
      (fun x y hxy => by rw [attrCaseEq_className hxy, attrCaseEq_strValue hxy]) h,
    queryCaseEquiv_all (fun x y hxy => by rw [attrCaseEq_className hxy]) h]

/-- `SUVIClient._can_handle_query` is invariant under instrument-value case. -/
theorem suvi_caseEquiv_invariant {q1 q2 : List QueryAttr}
    (h : queryCaseEquiv q1 q2 = true) :
    SUVI.can_handle_query q1 = SUVI.can_handle_query q2 := by
  unfold SUVI.can_handle_query
  rw [queryCaseEquiv_map_kind h,
    queryCaseEquiv_countP
      (fun x y hxy => by rw [attrCaseEq_kind hxy, attrCaseEq_strValue hxy]) h]


/-- An attribute that is not an `Instrument` instance never passes the
instrument test of `GBMClient._can_handle_query`. -/
theorem gbm_instrument_test_false {x : QueryAttr} (h : kind x ≠ AttrKind.Instrument) :
    (className x == "Instrument" && lowerStr (strValue x) == "gbm") = false := by
  cases x <;> first | exact absurd rfl h | exact Bool.false_and _ | exact Bool.and_false _

/-- An attribute that is not an `Instrument` instance never passes the
instrument test of `XRSClient._can_handle_query`. -/
theorem xrs_instrument_test_false {x : QueryAttr} (h : kind x ≠ AttrKind.Instrument) :
    (className x == "Instrument" &&
      (lowerStr (strValue x) == "xrs" || lowerStr (strValue x) == "goes")) = false := by
  cases x <;> first | exact absurd rfl h | exact Bool.false_and _ | exact Bool.and_false _

/-- An attribute that is not an `Instrument` instance never passes the
instrument test of `SUVIClient._can_handle_query`. -/
theorem suvi_instrument_test_false {x : QueryAttr} (h : kind x ≠ AttrKind.Instrument) :
    (kind x == AttrKind.Instrument && lowerStr (strValue x) == "suvi") = false := by
  cases x <;> first | exact absurd rfl h | exact Bool.false_and _

/-- `GBMClient._can_handle_query` rejects a query with no `Instrument`
attribute. -/
theorem gbm_reject_of_no_instrument {q : List QueryAttr}
    (h : ∀ x ∈ q, kind x ≠ AttrKind.Instrument) : GBM.can_handle_query q = false := by
  unfold GBM.can_handle_query
  have hany : q.any (fun x => className x == "Instrument" && lowerStr (strValue x) == "gbm")
      = false := by
    rw [List.any_eq_false]
    intro x hx
    simp [gbm_instrument_test_false (h x hx)]
  simp [hany]

/-- `XRSClient._can_handle_query` rejects a query with no `Instrument`
attribute. -/
theorem xrs_reject_of_no_instrument {q : List QueryAttr}
    (h : ∀ x ∈ q, kind x ≠ AttrKind.Instrument) : XRS.can_handle_query q = false := by
  unfold XRS.can_handle_query
  have hany : q.any (fun x => className x == "Instrument" &&
      (lowerStr (strValue x) == "xrs" || lowerStr (strValue x) == "goes")) = false := by
    rw [List.any_eq_false]
    intro x hx
    simp [xrs_instrument_test_false (h x hx)]
  simp [hany]

/-- `SUVIClient._can_handle_query` rejects a query with no `Instrument`
attribute. -/
theorem suvi_reject_of_no_instrument {q : List QueryAttr}
    (h : ∀ x ∈ q, kind x ≠ AttrKind.Instrument) : SUVI.can_handle_query q = false := by
  unfold SUVI.can_handle_query
  have hcount : q.countP
      (fun x => kind x == AttrKind.Instrument && lowerStr (strValue x) == "suvi") = 0 := by
    rw [List.countP_eq_zero]
    intro x hx
    simp [suvi_instrument_test_false (h x hx)]
  simp only [hcount]
  split <;> rfl

/-- A present attribute kind outside required and optional makes
`SUVIClient._can_handle_query` reject. -/
theorem SUVI.reject_of_bad_kind {q : List QueryAttr} {k : AttrKind}
    (hmem : k ∈ q.map kind) (hreq : k ∉ SUVI.required) (hopt : k ∉ SUVI.optionalKinds) :
    SUVI.can_handle_query q = false := by
  unfold SUVI.can_handle_query
  have hops : k ∈ (q.map kind).filter (fun k2 => !SUVI.required.contains k2) := by
    rw [List.mem_filter]
    exact ⟨hmem, by simp [hreq]⟩
  have hne : ((q.map kind).filter (fun k2 => !SUVI.required.contains k2)).isEmpty = false := by
    rcases hF : (q.map kind).filter (fun k2 => !SUVI.required.contains k2) with _ | ⟨a, l⟩
    · rw [hF] at hops
      exact absurd hops (List.not_mem_nil k)
    · rfl
  have hall : ((q.map kind).filter (fun k2 => !SUVI.required.contains k2)).all
      (fun k2 => SUVI.optionalKinds.contains k2) = false := by
    rw [List.all_eq_false]
    exact ⟨k, hops, by simp [hopt]⟩
  simp only [SUVI.can_handle_query, hne, hall]
  rfl

/-- A required kind missing from the query makes `EVEClient._can_handle_query`
reject. -/
theorem EVE.reject_of_missing_required {q : List QueryAttr} {k : AttrKind}
    (hk : k ∈ EVE.required) (hmem : k ∉ q.map kind) : EVE.can_handle_query q = false := by
  rw [EVE.can_handle_query_eq]
  have hchk : check_attr_types_in_query q EVE.required EVE.optionalKinds = false := by
    unfold check_attr_types_in_query
    have h1 : EVE.required.all (fun k2 => (q.map kind).contains k2) = false := by
      rw [List.all_eq_false]
      exact ⟨k, hk, by simp [hmem]⟩
    rw [h1]
    rfl
  rw [hchk]
  rfl

/-- A present attribute kind outside EVE's required kinds makes
`EVEClient._can_handle_query` reject. -/
theorem EVE.reject_of_unknown_kind {q : List QueryAttr} {k : AttrKind}
    (hmem : k ∈ q.map kind) (hk : k ∉ EVE.required) : EVE.can_handle_query q = false := by
  rw [EVE.can_handle_query_eq]
  have hchk : check_attr_types_in_query q EVE.required EVE.optionalKinds = false := by
    unfold check_attr_types_in_query
    have h2 : (q.map kind).all
        (fun k2 => EVE.required.contains k2 || EVE.optionalKinds.contains k2) = false := by
      rw [List.all_eq_false]
      exact ⟨k, hmem, by simp [EVE.optionalKinds, hk]⟩
    rw [h2]
    exact Bool.and_false _
  rw [hchk]
  rfl

/-- An attribute failing its per-attribute test makes
`EVEClient._can_handle_query` reject. -/
theorem EVE.reject_of_bad_attr {q : List QueryAttr} {x : QueryAttr}
    (hx : x ∈ q) (hbad : EVE.attrOk x = false) : EVE.can_handle_query q = false := by
  rw [EVE.can_handle_query_eq]
  have hall : q.all EVE.attrOk = false := by
    rw [List.all_eq_false]
    exact ⟨x, hx, by simp [hbad]⟩
  rw [hall]
  exact Bool.and_false _

/-- Appending a non-`Instrument` attribute cannot turn a GBM rejection into an
acceptance. -/
theorem gbm_append_mono {q : List QueryAttr} {x : QueryAttr}
    (h : kind x ≠ AttrKind.Instrument) :
    GBM.can_handle_query (q ++ [x]) = true → GBM.can_handle_query q = true := by
  unfold GBM.can_handle_query
  rw [List.any_append, List.all_append]
  simp only [List.any_cons, List.any_nil, gbm_instrument_test_false h, Bool.or_false,
    List.all_cons, List.all_nil, Bool.and_true]
  intro hacc
  split at hacc
  · next hcond =>
      rw [if_pos hcond]
      simp only [Bool.and_eq_true] at hacc
      exact hacc.1
  · exact Bool.noConfusion hacc

/-- Appending a non-`Instrument` attribute cannot turn an XRS rejection into an
acceptance. -/
theorem xrs_append_mono {q : List QueryAttr} {x : QueryAttr}
    (h : kind x ≠ AttrKind.Instrument) :
    XRS.can_handle_query (q ++ [x]) = true → XRS.can_handle_query q = true := by
  unfold XRS.can_handle_query
  rw [List.any_append, List.all_append]
  simp only [List.any_cons, List.any_nil, xrs_instrument_test_false h, Bool.or_false,
    List.all_cons, List.all_nil, Bool.and_true]
  intro hacc
  split at hacc
  · next hcond =>
      rw [if_pos hcond]
      simp only [Bool.and_eq_true] at hacc
      exact hacc.1
  · exact Bool.noConfusion hacc


/-- EVE accepts a `Time`/`Instrument`/`Level 0` query exactly when the
instrument value lower-cases to "eve". -/
theorem eve_accept_case (tr : TimeRange) (s : String) :
    EVE.can_handle_query [QueryAttr.time tr, QueryAttr.instrument s,
      QueryAttr.level (LevelValue.num (Frac.ofInt 0))] = (lowerStr s == "eve") :=
  Bool.and_true (lowerStr s == "eve")

/-- GBM accepts a `Time`/`Instrument` query exactly when the instrument value
lower-cases to "gbm". -/
theorem gbm_accept_case (tr : TimeRange) (s : String) :
    GBM.can_handle_query [QueryAttr.time tr, QueryAttr.instrument s] =
      (lowerStr s == "gbm") := by
  show (if ((lowerStr s == "gbm") || false) = true then true else false) = (lowerStr s == "gbm")
  cases lowerStr s == "gbm" <;> rfl

/-- XRS accepts a `Time`/`Instrument` query exactly when the instrument value
lower-cases to "xrs" or "goes". -/
theorem xrs_accept_case (tr : TimeRange) (s : String) :
    XRS.can_handle_query [QueryAttr.time tr, QueryAttr.instrument s] =
      ((lowerStr s == "xrs") || (lowerStr s == "goes")) := by
  show (if (((lowerStr s == "xrs") || (lowerStr s == "goes")) || false) = true
      then true else false) = ((lowerStr s == "xrs") || (lowerStr s == "goes"))
  cases lowerStr s == "xrs" <;> cases lowerStr s == "goes" <;> rfl

/-- SUVI accepts a `Time`/`Instrument` query exactly when the instrument value
lower-cases to "suvi". -/
theorem suvi_accept_case (tr : TimeRange) (s : String) :
    SUVI.can_handle_query [QueryAttr.time tr, QueryAttr.instrument s] =
      (lowerStr s == "suvi") := by
  show ((cond (lowerStr s == "suvi") (0 + 1) 0 : Nat) == 1) = (lowerStr s == "suvi")
  cases lowerStr s == "suvi" <;> rfl


/-- Replacing the appended attribute by one of the same kind and the same
per-attribute verdict gives the same EVE answer. -/
theorem EVE.can_append_congr {a b : QueryAttr} (hk : kind a = kind b)
    (ha : EVE.attrOk a = EVE.attrOk b) (q : List QueryAttr) :
    EVE.can_handle_query (q ++ [a]) = EVE.can_handle_query (q ++ [b]) := by
  rw [EVE.can_handle_query_eq, EVE.can_handle_query_eq, List.all_append, List.all_append]
  unfold check_attr_types_in_query
  rw [List.map_append, List.map_append]
  simp only [List.map_cons, List.map_nil, List.all_cons, List.all_nil, hk, ha]

/-- C1: `EVEClient._can_handle_query` accepts a `Level` attribute exactly when
its value normalizes to 0 (the string "0cs" case-insensitively normalizes to
0, any other string is converted with `int()` and must equal 0, a non-string
value must equal 0); hence `Level("0cs")` and `Level(0)` are accepted
identically in any query context, a Time/Instrument("eve") query with either
is accepted, and one carrying `Level("wibble")` or `Level(0.5)` is
rejected. -/
theorem claimC1 (v : LevelValue) (q r : List QueryAttr) (tr : TimeRange)
    (hr : QueryAttr.level (LevelValue.str "wibble") ∈ r ∨
      QueryAttr.level (LevelValue.num ⟨1, 2⟩) ∈ r) :
    EVE.levelOk v = levelNormalizesToZero v ∧
    EVE.can_handle_query (q ++ [QueryAttr.level (LevelValue.str "0cs")]) =
      EVE.can_handle_query (q ++ [QueryAttr.level (LevelValue.num (Frac.ofInt 0))]) ∧
    EVE.can_handle_query [QueryAttr.time tr, QueryAttr.instrument "eve",
      QueryAttr.level (LevelValue.str "0cs")] = true ∧
    EVE.can_handle_query [QueryAttr.time tr, QueryAttr.instrument "eve",
      QueryAttr.level (LevelValue.num (Frac.ofInt 0))] = true ∧
    EVE.can_handle_query r = false := by
  refine ⟨rfl, @EVE.can_append_congr (QueryAttr.level (LevelValue.str "0cs"))
    (QueryAttr.level (LevelValue.num (Frac.ofInt 0))) rfl rfl q, rfl, rfl, ?_⟩
  rcases hr with hr | hr
  · exact EVE.reject_of_bad_attr hr rfl
  · exact EVE.reject_of_bad_attr hr rfl

/-- Witness for C1: the Level("wibble") query of `test_eve.py` is rejected. -/
theorem claimC1_witness :
    (QueryAttr.level (LevelValue.str "wibble") ∈
        ([QueryAttr.time ⟨⟨2012, 8, 9⟩, ⟨2012, 8, 10⟩⟩, QueryAttr.instrument "eve",
          QueryAttr.level (LevelValue.str "wibble")] : List QueryAttr) ∨
      QueryAttr.level (LevelValue.num ⟨1, 2⟩) ∈
        ([QueryAttr.time ⟨⟨2012, 8, 9⟩, ⟨2012, 8, 10⟩⟩, QueryAttr.instrument "eve",
          QueryAttr.level (LevelValue.str "wibble")] : List QueryAttr)) ∧
    EVE.can_handle_query [QueryAttr.time ⟨⟨2012, 8, 9⟩, ⟨2012, 8, 10⟩⟩,
      QueryAttr.instrument "eve", QueryAttr.level (LevelValue.str "wibble")] = false :=
  ⟨by decide, (claimC1 (LevelValue.str "0CS") []
    [QueryAttr.time ⟨⟨2012, 8, 9⟩, ⟨2012, 8, 10⟩⟩, QueryAttr.instrument "eve",
      QueryAttr.level (LevelValue.str "wibble")]
    ⟨⟨2012, 8, 9⟩, ⟨2012, 8, 10⟩⟩ (Or.inl (by decide))).2.2.2.2⟩

/-- C2 counterexample: `SUVIClient._can_handle_query` and
`GBMClient._can_handle_query` accept a query consisting of only their
`Instrument` attribute, with no `Time` attribute — the claim says every
client rejects a query missing a required kind. -/
theorem claimC2_counterexample :
    SUVI.can_handle_query [QueryAttr.instrument "suvi"] = true ∧
    GBM.can_handle_query [QueryAttr.instrument "gbm"] = true :=
  ⟨rfl, rfl⟩

/-- C2 (amended): `EVEClient` rejects a query missing any of its required
kinds (Time, Instrument, Level); `GBMClient`, `XRSClient` and `SUVIClient`
reject a query containing no `Instrument` attribute, but do not require
`Time` — the Instrument-only queries of the original claim are accepted. -/
theorem claimC2 (q r : List QueryAttr) (k : AttrKind)
    (hq : ∀ x ∈ q, kind x ≠ AttrKind.Instrument)
    (hk : k ∈ EVE.required) (hr : k ∉ r.map kind) :
    GBM.can_handle_query q = false ∧ XRS.can_handle_query q = false ∧
    SUVI.can_handle_query q = false ∧ EVE.can_handle_query r = false :=
  ⟨gbm_reject_of_no_instrument hq, xrs_reject_of_no_instrument hq,
    suvi_reject_of_no_instrument hq, EVE.reject_of_missing_required hk hr⟩

/-- Witness for C2: a Time-only query is rejected by GBM, XRS and SUVI, and a
Time/Instrument("eve") query without Level is rejected by EVE. -/
theorem claimC2_witness :
    (∀ x ∈ ([QueryAttr.time ⟨⟨2012, 7, 7⟩, ⟨2012, 7, 7⟩⟩] : List QueryAttr),
      kind x ≠ AttrKind.Instrument) ∧
    AttrKind.Level ∈ EVE.required ∧
    AttrKind.Level ∉ ([QueryAttr.time ⟨⟨2012, 8, 9⟩, ⟨2012, 8, 10⟩⟩,
      QueryAttr.instrument "eve"] : List QueryAttr).map kind ∧
    (GBM.can_handle_query [QueryAttr.time ⟨⟨2012, 7, 7⟩, ⟨2012, 7, 7⟩⟩] = false ∧
      XRS.can_handle_query [QueryAttr.time ⟨⟨2012, 7, 7⟩, ⟨2012, 7, 7⟩⟩] = false ∧
      SUVI.can_handle_query [QueryAttr.time ⟨⟨2012, 7, 7⟩, ⟨2012, 7, 7⟩⟩] = false ∧
      EVE.can_handle_query [QueryAttr.time ⟨⟨2012, 8, 9⟩, ⟨2012, 8, 10⟩⟩,
        QueryAttr.instrument "eve"] = false) :=
  ⟨by decide, by decide, by decide,
    claimC2 [QueryAttr.time ⟨⟨2012, 7, 7⟩, ⟨2012, 7, 7⟩⟩]
      [QueryAttr.time ⟨⟨2012, 8, 9⟩, ⟨2012, 8, 10⟩⟩, QueryAttr.instrument "eve"]
      AttrKind.Level (by decide) (by decide) (by decide)⟩

/-- C3: for each of the four clients, appending an attribute whose kind is
outside that client's required and optional kinds can only flip acceptance
from true to false, never from false to true: if the extended query is
accepted, so was the original. -/
theorem claimC3 (c : Client) (q : List QueryAttr) (x : QueryAttr)
    (h : kind x ∉ Client.kinds c) :
    Client.canHandle c (q ++ [x]) = true → Client.canHandle c q = true := by
  cases c with
  | eve =>
    intro hacc
    have hkx : kind x ∉ EVE.required := fun hm => h (List.mem_append_left _ hm)
    have hmem : kind x ∈ (q ++ [x]).map kind := by
      rw [List.map_append]
      exact List.mem_append_right _ (by simp)
    have hacc2 : EVE.can_handle_query (q ++ [x]) = true := hacc
    rw [EVE.reject_of_unknown_kind hmem hkx] at hacc2
    exact Bool.noConfusion hacc2
  | gbm =>
    have hkx : kind x ≠ AttrKind.Instrument := fun he => h (by rw [he]; decide)
    exact gbm_append_mono hkx
  | xrs =>
    have hkx : kind x ≠ AttrKind.Instrument := fun he => h (by rw [he]; decide)
    exact xrs_append_mono hkx
  | suvi =>
    intro hacc
    have hreq : kind x ∉ SUVI.required := fun hm => h (List.mem_append_left _ hm)
    have hopt : kind x ∉ SUVI.optionalKinds := fun hm => h (List.mem_append_right _ hm)
    have hmem : kind x ∈ (q ++ [x]).map kind := by
      rw [List.map_append]
      exact List.mem_append_right _ (by simp)
    have hacc2 : SUVI.can_handle_query (q ++ [x]) = true := hacc
    rw [SUVI.reject_of_bad_kind hmem hreq hopt] at hacc2
    exact Bool.noConfusion hacc2

/-- Witness for C3: an attribute of an unregistered class named "Instrument"
is outside GBM's kinds, the extended query is accepted, and the theorem
yields acceptance of the original query. -/
theorem claimC3_witness :
    (kind (QueryAttr.other "Instrument") ∉ Client.kinds Client.gbm) ∧
    Client.canHandle Client.gbm
      [QueryAttr.time ⟨⟨2015, 6, 21⟩, ⟨2015, 6, 23⟩⟩, QueryAttr.instrument "gbm"] = true :=
  ⟨by decide,
    claimC3 Client.gbm
      [QueryAttr.time ⟨⟨2015, 6, 21⟩, ⟨2015, 6, 23⟩⟩, QueryAttr.instrument "gbm"]
      (QueryAttr.other "Instrument") (by decide) (by decide)⟩

/-- C4: `SUVIClient._can_handle_query` rejects any query containing an
attribute kind outside its required kinds {Time, Instrument} and optional
kinds {Wavelength, Level, SatelliteNumber}; it accepts
{Time, Instrument("suvi"), Wavelength} and rejects the same query extended
with a `Detector` attribute. -/
theorem claimC4 (q : List QueryAttr) (x : QueryAttr) (tr : TimeRange)
    (lo hi : Frac) (d : String) (hx : x ∈ q)
    (hk : kind x ∉ SUVI.required ++ SUVI.optionalKinds) :
    SUVI.can_handle_query q = false ∧
    SUVI.can_handle_query [QueryAttr.time tr, QueryAttr.instrument "suvi",
      QueryAttr.wavelength lo hi] = true ∧
    SUVI.can_handle_query [QueryAttr.time tr, QueryAttr.instrument "suvi",
      QueryAttr.wavelength lo hi, QueryAttr.detector d] = false :=
  ⟨SUVI.reject_of_bad_kind (List.mem_map_of_mem kind hx)
      (fun hm => hk (List.mem_append_left _ hm))
      (fun hm => hk (List.mem_append_right _ hm)),
    rfl, rfl⟩

/-- Witness for C4 at a concrete Detector-carrying query. -/
theorem claimC4_witness :
    (QueryAttr.detector "n1" ∈
      ([QueryAttr.time ⟨⟨2019, 1, 1⟩, ⟨2019, 1, 2⟩⟩, QueryAttr.instrument "suvi",
        QueryAttr.detector "n1"] : List QueryAttr)) ∧
    (kind (QueryAttr.detector "n1") ∉ SUVI.required ++ SUVI.optionalKinds) ∧
    SUVI.can_handle_query [QueryAttr.time ⟨⟨2019, 1, 1⟩, ⟨2019, 1, 2⟩⟩,
      QueryAttr.instrument "suvi", QueryAttr.detector "n1"] = false :=
  ⟨by decide, by decide,
    (claimC4 [QueryAttr.time ⟨⟨2019, 1, 1⟩, ⟨2019, 1, 2⟩⟩, QueryAttr.instrument "suvi",
        QueryAttr.detector "n1"]
      (QueryAttr.detector "n1") ⟨⟨2019, 1, 1⟩, ⟨2019, 1, 2⟩⟩
      (Frac.ofInt 304) (Frac.ofInt 304) "n1" (by decide) (by decide)).1⟩


/-- C5 counterexample: "n99" is not among GBM's registered detector values,
yet `GBMClient._can_handle_query` accepts the query carrying it — the claim
says a failing Detector value causes rejection. -/
theorem claimC5_counterexample :
    GBM.detectors.contains (lowerStr "n99") = false ∧
    GBM.can_handle_query [QueryAttr.time ⟨⟨2015, 6, 21⟩, ⟨2015, 6, 23⟩⟩,
      QueryAttr.instrument "gbm", QueryAttr.detector "n99"] = true :=
  ⟨by decide, rfl⟩

/-- C5 (amended): `GBMClient._can_handle_query` never inspects the values of
`Detector` or `Resolution` attributes, only their class names: any
Time/Instrument("gbm") query carrying arbitrary Detector and Resolution
values — registered or not — is accepted; detector-value checking lives in
`_check_detector`, outside `_can_handle_query`. -/
theorem claimC5 (tr : TimeRange) (d r : String) :
    GBM.can_handle_query [QueryAttr.time tr, QueryAttr.instrument "gbm",
      QueryAttr.detector d, QueryAttr.resolution r] = true :=
  rfl

/-- C6: `EVEClient._can_handle_query` returns a boolean for every query and
never lets the `ValueError` of `int()` escape: the exception-monad version
always returns `ok` of the boolean answer, even though `int("wibble")`
itself raises; the failing values "wibble" and 0.5 simply give `False`. -/
theorem claimC6 (q : List QueryAttr) (tr : TimeRange) :
    EVE.can_handle_queryE q = Except.ok (EVE.can_handle_query q) ∧
    pyInt "wibble" = Except.error "ValueError" ∧
    EVE.can_handle_query [QueryAttr.time tr, QueryAttr.instrument "eve",
      QueryAttr.level (LevelValue.str "wibble")] = false ∧
    EVE.can_handle_query [QueryAttr.time tr, QueryAttr.instrument "eve",
      QueryAttr.level (LevelValue.num ⟨1, 2⟩)] = false := by
  refine ⟨?_, rfl, ?_, ?_⟩
  · unfold EVE.can_handle_queryE EVE.can_handle_query
    rcases hc : check_attr_types_in_query q EVE.required EVE.optionalKinds with _ | _
    · rfl
    · exact EVE.foldlM_eq_ok q true
  · exact EVE.reject_of_bad_attr
      (List.mem_cons_of_mem _ (List.mem_cons_of_mem _ (List.mem_cons_self _ _))) rfl
  · exact EVE.reject_of_bad_attr
      (List.mem_cons_of_mem _ (List.mem_cons_of_mem _ (List.mem_cons_self _ _))) rfl

/-- C7: for each of the four clients, queries identical up to the letter case
of `Instrument` values get the same answer, and a Time/Instrument query (with
Level 0 for EVE) is accepted exactly when the instrument value lower-cases to
the client's name ("eve", "gbm", "xrs"/"goes", "suvi"), whatever its
casing. -/
theorem claimC7 (q1 q2 : List QueryAttr) (s : String) (tr : TimeRange)
    (h : queryCaseEquiv q1 q2 = true) :
    (EVE.can_handle_query q1 = EVE.can_handle_query q2) ∧
    (GBM.can_handle_query q1 = GBM.can_handle_query q2) ∧
    (XRS.can_handle_query q1 = XRS.can_handle_query q2) ∧
    (SUVI.can_handle_query q1 = SUVI.can_handle_query q2) ∧
    (EVE.can_handle_query [QueryAttr.time tr, QueryAttr.instrument s,
      QueryAttr.level (LevelValue.num (Frac.ofInt 0))] = (lowerStr s == "eve")) ∧
    (GBM.can_handle_query [QueryAttr.time tr, QueryAttr.instrument s] =
      (lowerStr s == "gbm")) ∧
    (XRS.can_handle_query [QueryAttr.time tr, QueryAttr.instrument s] =
      ((lowerStr s == "xrs") || (lowerStr s == "goes"))) ∧
    (SUVI.can_handle_query [QueryAttr.time tr, QueryAttr.instrument s] =
      (lowerStr s == "suvi")) :=
  ⟨eve_caseEquiv_invariant h, gbm_caseEquiv_invariant h, xrs_caseEquiv_invariant h,
    suvi_caseEquiv_invariant h, eve_accept_case tr s, gbm_accept_case tr s,
    xrs_accept_case tr s, suvi_accept_case tr s⟩

/-- Witness for C7: the queries with Instrument("EVE") and Instrument("eve")
are case-equivalent and get the same EVE answer. -/
theorem claimC7_witness :
    queryCaseEquiv
        [QueryAttr.time ⟨⟨2016, 1, 1⟩, ⟨2016, 1, 2⟩⟩, QueryAttr.instrument "EVE",
          QueryAttr.level (LevelValue.num (Frac.ofInt 0))]
        [QueryAttr.time ⟨⟨2016, 1, 1⟩, ⟨2016, 1, 2⟩⟩, QueryAttr.instrument "eve",
          QueryAttr.level (LevelValue.num (Frac.ofInt 0))] = true ∧
    EVE.can_handle_query [QueryAttr.time ⟨⟨2016, 1, 1⟩, ⟨2016, 1, 2⟩⟩,
        QueryAttr.instrument "EVE", QueryAttr.level (LevelValue.num (Frac.ofInt 0))] =
      EVE.can_handle_query [QueryAttr.time ⟨⟨2016, 1, 1⟩, ⟨2016, 1, 2⟩⟩,
        QueryAttr.instrument "eve", QueryAttr.level (LevelValue.num (Frac.ofInt 0))] :=
  ⟨by decide,
    (claimC7
      [QueryAttr.time ⟨⟨2016, 1, 1⟩, ⟨2016, 1, 2⟩⟩, QueryAttr.instrument "EVE",
        QueryAttr.level (LevelValue.num (Frac.ofInt 0))]
      [QueryAttr.time ⟨⟨2016, 1, 1⟩, ⟨2016, 1, 2⟩⟩, QueryAttr.instrument "eve",
        QueryAttr.level (LevelValue.num (Frac.ofInt 0))]
      "EvE" ⟨⟨2016, 1, 1⟩, ⟨2016, 1, 2⟩⟩ (by decide)).1⟩

/-- C8: in `SUVIClient._get_url_for_timerange`, level-1b patterns render the
filename wavelength field as `wave - 1` exactly for the 304 and 94 bands
(He303, Fe093) and unchanged for 131, 171, 195 and 284, while level-2
patterns always render the wavelength unchanged. -/
theorem claimC8 :
    SUVI.search_pattern "1b" 131 16 = some
      "https://data.ngdc.noaa.gov/platforms/solar-space-observing-satellites/goes/goes16/l1b/suvi-l1b-fe131/%Y/%m/%d/OR_SUVI-L1b-Fe131_G16_s%Y%j%H%M%S.*\\.fits.gz" ∧
    SUVI.search_pattern "1b" 171 16 = some
      "https://data.ngdc.noaa.gov/platforms/solar-space-observing-satellites/goes/goes16/l1b/suvi-l1b-fe171/%Y/%m/%d/OR_SUVI-L1b-Fe171_G16_s%Y%j%H%M%S.*\\.fits.gz" ∧
    SUVI.search_pattern "1b" 195 16 = some
      "https://data.ngdc.noaa.gov/platforms/solar-space-observing-satellites/goes/goes16/l1b/suvi-l1b-fe195/%Y/%m/%d/OR_SUVI-L1b-Fe195_G16_s%Y%j%H%M%S.*\\.fits.gz" ∧
    SUVI.search_pattern "1b" 284 16 = some
      "https://data.ngdc.noaa.gov/platforms/solar-space-observing-satellites/goes/goes16/l1b/suvi-l1b-fe284/%Y/%m/%d/OR_SUVI-L1b-Fe284_G16_s%Y%j%H%M%S.*\\.fits.gz" ∧
    SUVI.search_pattern "1b" 304 16 = some
      "https://data.ngdc.noaa.gov/platforms/solar-space-observing-satellites/goes/goes16/l1b/suvi-l1b-he304/%Y/%m/%d/OR_SUVI-L1b-He303_G16_s%Y%j%H%M%S.*\\.fits.gz" ∧
    SUVI.search_pattern "1b" 94 16 = some
      "https://data.ngdc.noaa.gov/platforms/solar-space-observing-satellites/goes/goes16/l1b/suvi-l1b-fe094/%Y/%m/%d/OR_SUVI-L1b-Fe093_G16_s%Y%j%H%M%S.*\\.fits.gz" ∧
    SUVI.search_pattern "2" 131 16 = some
      "https://data.ngdc.noaa.gov/platforms/solar-space-observing-satellites/goes/goes16/l2/data/suvi-l2-ci131/%Y/%m/%d/dr_suvi-l2-ci131_g16_s%Y%m%dT%H%M%SZ_.*\\.fits" ∧
    SUVI.search_pattern "2" 171 16 = some
      "https://data.ngdc.noaa.gov/platforms/solar-space-observing-satellites/goes/goes16/l2/data/suvi-l2-ci171/%Y/%m/%d/dr_suvi-l2-ci171_g16_s%Y%m%dT%H%M%SZ_.*\\.fits" ∧
    SUVI.search_pattern "2" 195 16 = some
      "https://data.ngdc.noaa.gov/platforms/solar-space-observing-satellites/goes/goes16/l2/data/suvi-l2-ci195/%Y/%m/%d/dr_suvi-l2-ci195_g16_s%Y%m%dT%H%M%SZ_.*\\.fits" ∧
    SUVI.search_pattern "2" 284 16 = some
      "https://data.ngdc.noaa.gov/platforms/solar-space-observing-satellites/goes/goes16/l2/data/suvi-l2-ci284/%Y/%m/%d/dr_suvi-l2-ci284_g16_s%Y%m%dT%H%M%SZ_.*\\.fits" ∧
    SUVI.search_pattern "2" 304 16 = some
      "https://data.ngdc.noaa.gov/platforms/solar-space-observing-satellites/goes/goes16/l2/data/suvi-l2-ci304/%Y/%m/%d/dr_suvi-l2-ci304_g16_s%Y%m%dT%H%M%SZ_.*\\.fits" ∧
    SUVI.search_pattern "2" 94 16 = some
      "https://data.ngdc.noaa.gov/platforms/solar-space-observing-satellites/goes/goes16/l2/data/suvi-l2-ci094/%Y/%m/%d/dr_suvi-l2-ci094_g16_s%Y%m%dT%H%M%SZ_.*\\.fits" := by
  exact ⟨rfl, rfl, rfl, rfl, rfl, rfl, rfl, rfl, rfl, rfl, rfl, rfl⟩

/-- C9: the daily bucket enumeration over the EVE template is inclusive of
both endpoints: [2012-07-07, 2012-07-14] yields exactly 8 buckets whose first
rendered URL is for 2012-07-07 and whose last is for 2012-07-14, and the
degenerate range [2012-04-21, 2012-04-21] yields exactly one bucket with one
URL. -/
theorem claimC9 :
    (EVE.urlsForTimerange ⟨⟨2012, 7, 7⟩, ⟨2012, 7, 14⟩⟩).length = 8 ∧
    (EVE.urlsForTimerange ⟨⟨2012, 7, 7⟩, ⟨2012, 7, 14⟩⟩).head? = some
      "http://lasp.colorado.edu/eve/data_access/evewebdata/quicklook/L0CS/SpWx/2012/20120707_EVE_L0CS_DIODES_1m.txt" ∧
    (EVE.urlsForTimerange ⟨⟨2012, 7, 7⟩, ⟨2012, 7, 14⟩⟩).getLast? = some
      "http://lasp.colorado.edu/eve/data_access/evewebdata/quicklook/L0CS/SpWx/2012/20120714_EVE_L0CS_DIODES_1m.txt" ∧
    EVE.urlsForTimerange ⟨⟨2012, 4, 21⟩, ⟨2012, 4, 21⟩⟩ =
      ["http://lasp.colorado.edu/eve/data_access/evewebdata/quicklook/L0CS/SpWx/2012/20120421_EVE_L0CS_DIODES_1m.txt"] ∧
    (enumerateDaily ⟨⟨2012, 4, 21⟩, ⟨2012, 4, 21⟩⟩).length = 1 := by
  exact ⟨by decide, by decide, by decide, by decide, by decide⟩


/-- C10 counterexample: with `satellitenumber=16` given and a timerange
starting 2018-01-01, `SUVIClient._get_url_for_timerange` still raises
`ValueError` (the `_get_goes_sat_num` fallback of `kwargs.get` is evaluated
eagerly), although none of the claim's conditions holds; and a single
wavelength of 94.5 Angstrom — not in the supported set — is accepted, because
`int()` truncates it to 94. -/
theorem claimC10_counterexample :
    SUVI.validate ⟨2020, 1, 1⟩ ⟨2018, 1, 1⟩ none (some 16) none =
      Except.error "No operational SUVI instrument" ∧
    (SUVI.validate ⟨2020, 1, 1⟩ ⟨2019, 1, 1⟩
      (some (WaveInput.single ⟨189, 2⟩)) none none).isOk = true :=
  ⟨rfl, rfl⟩

/-- C10 (amended): the validation prefix of
`SUVIClient._get_url_for_timerange` raises `ValueError` exactly when: the
wavelength's `int()` truncation is not a supported wave (or a wavelength
range contains no supported wave), or the timerange start lies outside the
GOES-16 operational window [2018-06-01, now] — a check performed even when
`satellitenumber` is given, because the fallback is evaluated eagerly — or
the effective satellite number is below 16, or the level string is neither
"2" nor "1b". -/
theorem claimC10 (now trStart : Date) (w : Option WaveInput) (sat : Option Int)
    (lvl : Option String) :
    (SUVI.validate now trStart w sat lvl).isOk = false ↔
      (SUVI.waveRejected w = true ∨
        (decide ((Date.ordinal ⟨2018, 6, 1⟩ : Nat) ≤ trStart.ordinal) &&
          decide (trStart.ordinal ≤ now.ordinal)) = false ∨
        sat.getD 16 < 16 ∨
        SUVI.supported_levels.contains (lvl.getD "2") = false) := by
  have hwave : (SUVI.waveRejected w = true ∧
      SUVI.checkWaves w = Except.error "Wavelength not supported.") ∨
      (SUVI.waveRejected w = false ∧ ∃ ws, SUVI.checkWaves w = Except.ok ws) := by
    cases w with
    | none => exact Or.inr ⟨rfl, SUVI.supported_waves, rfl⟩
    | some wi =>
      cases wi with
      | single a =>
        rcases hc : SUVI.supported_waves.contains a.trunc with _ | _
        · refine Or.inl ⟨?_, ?_⟩
          · show (!SUVI.supported_waves.contains a.trunc) = true
            rw [hc]
            rfl
          · show (if (!SUVI.supported_waves.contains a.trunc) = true then
                (Except.error "Wavelength not supported." : Except String (List Int))
              else Except.ok [a.trunc]) = Except.error "Wavelength not supported."
            rw [hc]
            rfl
        · refine Or.inr ⟨?_, [a.trunc], ?_⟩
          · show (!SUVI.supported_waves.contains a.trunc) = false
            rw [hc]
            rfl
          · show (if (!SUVI.supported_waves.contains a.trunc) = true then
                (Except.error "Wavelength not supported." : Except String (List Int))
              else Except.ok [a.trunc]) = Except.ok [a.trunc]
            rw [hc]
            rfl
      | range lo hi =>
        rcases ha : (SUVI.supported_waves.map
            (fun v => lo.le (Frac.ofInt v) && (Frac.ofInt v).le hi)).any id with _ | _
        · refine Or.inl ⟨?_, ?_⟩
          · show (!(SUVI.supported_waves.map
                (fun v => lo.le (Frac.ofInt v) && (Frac.ofInt v).le hi)).any id) = true
            rw [ha]
            rfl
          · show (if (!(SUVI.supported_waves.map
                  (fun v => lo.le (Frac.ofInt v) && (Frac.ofInt v).le hi)).any id) = true then
                (Except.error "Wavelength not supported." : Except String (List Int))
              else Except.ok (pyCompress SUVI.supported_waves (SUVI.supported_waves.map
                (fun v => lo.le (Frac.ofInt v) && (Frac.ofInt v).le hi)))) =
              Except.error "Wavelength not supported."
            rw [ha]
            rfl
        · refine Or.inr ⟨?_,
            pyCompress SUVI.supported_waves (SUVI.supported_waves.map
              (fun v => lo.le (Frac.ofInt v) && (Frac.ofInt v).le hi)), ?_⟩
          · show (!(SUVI.supported_waves.map
                (fun v => lo.le (Frac.ofInt v) && (Frac.ofInt v).le hi)).any id) = false
            rw [ha]
            rfl
          · show (if (!(SUVI.supported_waves.map
                  (fun v => lo.le (Frac.ofInt v) && (Frac.ofInt v).le hi)).any id) = true then
                (Except.error "Wavelength not supported." : Except String (List Int))
              else Except.ok (pyCompress SUVI.supported_waves (SUVI.supported_waves.map
                (fun v => lo.le (Frac.ofInt v) && (Frac.ofInt v).le hi)))) =
              Except.ok (pyCompress SUVI.supported_waves (SUVI.supported_waves.map
                (fun v => lo.le (Frac.ofInt v) && (Frac.ofInt v).le hi)))
            rw [ha]
            rfl
  unfold SUVI.validate
  rcases hwave with ⟨hwr, hcw⟩ | ⟨hwf, ws, hcw⟩
  · rw [hcw]
    simp [Except.isOk, Except.toBool, hwr]
  · rw [hcw]
    unfold SUVI.get_goes_sat_num
    rcases hop : (decide ((Date.ordinal ⟨2018, 6, 1⟩ : Nat) ≤ trStart.ordinal) &&
        decide (trStart.ordinal ≤ now.ordinal)) with _ | _
    · simp [Except.isOk, Except.toBool, hwf]
    · by_cases hsat : (sat.getD 16 : Int) < 16
      · simp [Except.isOk, Except.toBool, hwf, hsat]
      · rcases hlvl : SUVI.supported_levels.contains (lvl.getD "2") with _ | _
        · have hlvl2 : lvl.getD "2" ∉ SUVI.supported_levels := by simpa using hlvl
          simp [Except.isOk, Except.toBool, hwf, hsat, hlvl2]
        · have hlvl2 : lvl.getD "2" ∈ SUVI.supported_levels := by simpa using hlvl
          simp [Except.isOk, Except.toBool, hwf, hsat, hlvl2]

